import Mathlib

/-!
Shallow embedding of `src/edr/edentities.py` (the EDR commander state
tracker) and proofs about it.  The file is Python 2: `/` on two ints is
floor division, `u"{}"` formatting of an int renders its decimal digits.
External collaborators that are not under `src/` (the ship-name table
`data/shipnames.json`, the `edtime.EDTime` timestamp wrapper, and the
`edri18n` localization functions `_` / `_c`) are modelled from the spec,
as noted at each definition.
-/

namespace EDR

/-- ASCII lower-casing of one character, as CPython's `str.lower` acts on
the ASCII range (the only range exercised by ship names and the table). -/
def pyLowerChar (c : Char) : Char :=
  if 65 ≤ c.toNat ∧ c.toNat ≤ 90 then Char.ofNat (c.toNat + 32) else c

/-- `s.lower()` on an ASCII string. -/
def pyLower (s : String) : String :=
  ⟨s.data.map pyLowerChar⟩

/-- `p.startswith(q)` via the character lists. -/
def strStartsWith (s pre : String) : Bool :=
  pre.data.isPrefixOf s.data

/-- Drop the first `n` characters of `s` (used to model
`s.partition(sep)[2]` when `s.startswith(sep)` holds: the first occurrence
of `sep` is then the prefix, so the part after it is `s` minus `sep`). -/
def strDrop (s : String) (n : Nat) : String :=
  ⟨s.data.drop n⟩

/-- CPython's `"{:.1f}".format(num / den)` for non-negative integers
`num`, `den > 0`, modelled on the exact rational `num / den` with
round-half-to-even (the float detour can differ from this only on exact
decimal ties, which none of the boundary values exercised here hit). -/
def formatOneDecimal (num den : Nat) : String :=
  let scaled := num * 10
  let q0 := scaled / den
  let r := scaled % den
  let q := if den < 2 * r then q0 + 1
           else if 2 * r < den then q0
           else if q0 % 2 = 0 then q0 else q0 + 1
  toString (q / 10) ++ "." ++ toString (q % 10)

/-- `EDBounty`: wraps a bounty value; `threshold` comes from external
configuration (`edrconfig`, not under `src/`) and is a plain parameter. -/
structure EDBounty where
  value : Nat
  threshold : Nat

namespace EDBounty

def is_significant (b : EDBounty) : Bool :=
  b.threshold ≤ b.value

/-- `EDBounty.pretty_print`.  The `_(...)` localization wrapper is
modelled from the spec as the identity on the template text (the spec's
own formatter table reads the output this way).  Integer branches use
Python 2 floor division; one-decimal branches divide by a float. -/
def pretty_print (b : EDBounty) : String :=
  if b.value ≥ 10000000000 then toString (b.value / 1000000000) ++ " b"
  else if b.value ≥ 1000000000 then formatOneDecimal b.value 1000000000 ++ " b"
  else if b.value ≥ 10000000 then toString (b.value / 1000000) ++ " m"
  else if b.value > 1000000 then formatOneDecimal b.value 1000000 ++ " m"
  else if b.value ≥ 10000 then toString (b.value / 1000) ++ " k"
  else if b.value ≥ 1000 then formatOneDecimal b.value 1000 ++ " k"
  else toString b.value

end EDBounty

/-- Modelled from the spec: `EDVehicles.CANONICAL_SHIP_NAMES` is loaded
from `data/shipnames.json`, which is not under `src/`; the spec treats it
as an opaque "static table resource mapping lower-cased free-form vehicle
names to canonical display names", so the table is a parameter (an
association list, looked up like the Python dict). -/
def ShipTable : Type := List (String × String)

namespace EDVehicles

/-- `EDVehicles.canonicalize`: `None` maps to the fixed `"Unknown"`
label; otherwise the lower-cased name is looked up in the table and the
lower-cased input is returned when absent. -/
def canonicalize (table : ShipTable) : Option String → String
  | none => "Unknown"
  | some name =>
    match List.lookup (pyLower name) table with
    | some canon => canon
    | none => pyLower name

end EDVehicles

/-- `EDLocation`: the `__init__` defaults are all `None`. -/
structure EDLocation where
  star_system : Option String
  place : Option String
  security : Option String
deriving DecidableEq

def EDLocation.init : EDLocation := ⟨none, none, none⟩

def EDLocation.is_anarchy_or_lawless (loc : EDLocation) : Bool :=
  loc.security = some "$GAlAXY_MAP_INFO_state_anarchy;" ∨
    loc.security = some "$GALAXY_MAP_INFO_state_lawless;"

/-- `EDLocation.pretty_print`.  `u"{system}".format` renders Python's
`None` as the text `"None"`.  The result is `none` exactly when the
Python code raises a `TypeError` (`place` truthy and different from an
unset `star_system`, so `self.star_system + " "` adds `None` to a
string).  Under the `startswith` guard the first occurrence of
`star_system + " "` in `place` is the prefix itself, so
`place.partition(star_system + " ")[2]` is `place` minus that prefix. -/
def EDLocation.pretty_print (loc : EDLocation) : Option String :=
  let location := match loc.star_system with
    | some s => s
    | none => "None"
  match loc.place with
  | none => some location
  | some p =>
    if p = "" then some location
    else if some p = loc.star_system then some location
    else match loc.star_system with
      | none => none
      | some sys =>
        if strStartsWith p (sys ++ " ") then
          some (location ++ ", " ++ strDrop p (sys ++ " ").length)
        else
          some (location ++ ", " ++ p)

/-- Modelled from the spec: `edtime.EDTime` is not under `src/`.  The
spec says it parses the game's wire timestamp format into an internal
representation (epoch milliseconds) and "must signal a parse failure
distinctly", so a parse is an arbitrary partial function from the wire
string to epoch milliseconds; `none` is the signalled failure (a raised
exception in Python).  The wrapper's held value is the parsed number. -/
def TimestampParse : Type := String → Option Nat

/-- `EDCmdr`: field for field the attributes set in `__init__`.  Python
`set()` fields are `Finset String`; the initial `edtime.EDTime()` holds
the epoch, modelled as `0`. -/
structure EDCmdr where
  name : Option String
  _ship : Option String
  location : EDLocation
  game_mode : Option String
  previous_mode : Option String
  previous_wing : Finset String
  from_birth : Bool
  _timestamp : Nat
  wing : Finset String
  friends : Finset String
deriving DecidableEq

namespace EDCmdr

def init : EDCmdr :=
  { name := none
    _ship := none
    location := EDLocation.init
    game_mode := none
    previous_mode := none
    previous_wing := ∅
    from_birth := false
    _timestamp := 0
    wing := ∅
    friends := ∅ }

def in_solo_or_private (c : EDCmdr) : Bool :=
  c.game_mode = some "Solo" ∨ c.game_mode = some "Group"

def in_open (c : EDCmdr) : Bool :=
  c.game_mode = some "Open"

def inception (c : EDCmdr) : EDCmdr :=
  { c with from_birth := true, previous_mode := none, previous_wing := ∅, wing := ∅ }

def killed (c : EDCmdr) : EDCmdr :=
  { c with previous_mode := c.game_mode, previous_wing := c.wing,
           game_mode := none, wing := ∅ }

def resurrect (c : EDCmdr) : EDCmdr :=
  { c with game_mode := c.previous_mode, wing := c.previous_wing,
           previous_mode := none, previous_wing := ∅ }

def leave_wing (c : EDCmdr) : EDCmdr :=
  { c with wing := ∅ }

def join_wing (c : EDCmdr) (others : Finset String) : EDCmdr :=
  { c with wing := others }

def add_to_wing (c : EDCmdr) (other : String) : EDCmdr :=
  { c with wing := insert other c.wing }

def is_friend_or_in_wing (c : EDCmdr) (interlocutor : String) : Bool :=
  interlocutor ∈ c.friends ∨ interlocutor ∈ c.wing

/-- The `place` property getter: an unset `location.place` is rendered as
the `"Unknown"` label.  The `_c(u"...|Unknown")` localization call is
from `edri18n`, which is not under `src/`; modelled from the spec as the
identity rendering of the label text after the context separator. -/
def place (c : EDCmdr) : String :=
  match c.location.place with
  | none => "Unknown"
  | some p => p

def has_partial_status (c : EDCmdr) : Bool :=
  c._ship = none ∨ c.location.star_system = none ∨ c.location.place = none

/-- `update_ship_if_obsolete(ship, ed_timestamp)`.  The source assigns
`self._ship` first and only then parses the timestamp; a parse failure
(`Except.error ()`, a raised exception in Python) therefore leaves the
already-assigned ship in place while the stored timestamp is unchanged. -/
def update_ship_if_obsolete (table : ShipTable) (parse : TimestampParse)
    (c : EDCmdr) (ship : Option String) (ed_timestamp : String) :
    Except Unit Bool × EDCmdr :=
  if c._ship = none ∨ c._ship ≠ some (EDVehicles.canonicalize table ship) then
    let c1 := { c with _ship := some (EDVehicles.canonicalize table ship) }
    match parse ed_timestamp with
    | some ms => (Except.ok true, { c1 with _timestamp := ms })
    | none => (Except.error (), c1)
  else
    (Except.ok false, c)

/-- `update_star_system_if_obsolete(star_system, ed_timestamp)`: same
shape, on `location.star_system`, without canonicalization. -/
def update_star_system_if_obsolete (parse : TimestampParse)
    (c : EDCmdr) (star_system : Option String) (ed_timestamp : String) :
    Except Unit Bool × EDCmdr :=
  if c.location.star_system = none ∨ c.location.star_system ≠ star_system then
    let c1 := { c with location := { c.location with star_system := star_system } }
    match parse ed_timestamp with
    | some ms => (Except.ok true, { c1 with _timestamp := ms })
    | none => (Except.error (), c1)
  else
    (Except.ok false, c)

/-- `update_place_if_obsolete(place, ed_timestamp)`: same shape, on
`location.place`. -/
def update_place_if_obsolete (parse : TimestampParse)
    (c : EDCmdr) (new_place : Option String) (ed_timestamp : String) :
    Except Unit Bool × EDCmdr :=
  if c.location.place = none ∨ c.location.place ≠ new_place then
    let c1 := { c with location := { c.location with place := new_place } }
    match parse ed_timestamp with
    | some ms => (Except.ok true, { c1 with _timestamp := ms })
    | none => (Except.error (), c1)
  else
    (Except.ok false, c)

end EDCmdr

/-- Operations external callers perform on an `EDCmdr`: the group/session
state-machine methods, plus the plain attribute writes and property
setters that ingestion code uses (`game_mode` is a bare attribute; ship,
star system, place and timestamp have setters; the freshness-gated
update operations are compositions of these reads and writes and touch
neither `previous_mode` nor `previous_wing`). -/
inductive Op where
  | inceptionOp : Op
  | killedOp : Op
  | resurrectOp : Op
  | leaveWingOp : Op
  | joinWingOp (others : Finset String) : Op
  | addToWingOp (other : String) : Op
  | setGameMode (m : Option String) : Op
  | setShip (table : ShipTable) (s : Option String) : Op
  | setStarSystem (s : Option String) : Op
  | setPlace (p : Option String) : Op
  | setTimestamp (ms : Nat) : Op

def applyOp (c : EDCmdr) : Op → EDCmdr
  | .inceptionOp => c.inception
  | .killedOp => c.killed
  | .resurrectOp => c.resurrect
  | .leaveWingOp => c.leave_wing
  | .joinWingOp others => c.join_wing others
  | .addToWingOp other => c.add_to_wing other
  | .setGameMode m => { c with game_mode := m }
  | .setShip table s => { c with _ship := some (EDVehicles.canonicalize table s) }
  | .setStarSystem s => { c with location := { c.location with star_system := s } }
  | .setPlace p => { c with location := { c.location with place := p } }
  | .setTimestamp ms => { c with _timestamp := ms }

/-- Run a chronological list of operations from a state. -/
def runOps (c : EDCmdr) (ops : List Op) : EDCmdr :=
  ops.foldl applyOp c

/-- One step of phase tracking: `killed()` enters the combat-loss phase,
`resurrect()` and `inception()` leave it, every other operation keeps it. -/
def phaseStep (b : Bool) : Op → Bool
  | .killedOp => true
  | .resurrectOp => false
  | .inceptionOp => false
  | _ => b

/-- Whether, after the trace, the state machine is in the combat-loss
("killed") phase: the trace contains a `killed()` not yet followed by a
`resurrect()` or an `inception()`. -/
def inKilledPhase (ops : List Op) : Bool :=
  ops.foldl phaseStep false

/-- A sample commander in the Active phase: mode `"Open"`, wing
`{"A", "B"}` — the spec's §8 round-trip scenario. -/
def cmdrOpenAB : EDCmdr :=
  { EDCmdr.init with game_mode := some "Open", wing := {"A", "B"} }

/-- A concrete parse function for witnesses: accepts exactly one wire
timestamp. -/
def sampleParse : TimestampParse :=
  fun s => if s = "2017-09-03T10:00:00Z" then some 1504432800000 else none

/-- A concrete ship-name table for the witness: one real mapping plus
the canonical `"Unknown"` label. -/
def sampleTable : ShipTable :=
  [("sidewinder", "Sidewinder"), ("unknown", "Unknown")]

/-! ## Claim theorems -/

theorem char_toNat_ofNat {n : Nat} (h : n.isValidChar) : (Char.ofNat n).toNat = n := by
  rw [Char.ofNat, dif_pos h]
  rfl

theorem pyLowerChar_idem (c : Char) : pyLowerChar (pyLowerChar c) = pyLowerChar c := by
  unfold pyLowerChar
  by_cases h : 65 ≤ c.toNat ∧ c.toNat ≤ 90
  · rw [if_pos h]
    have hv : (c.toNat + 32).isValidChar := Or.inl (by omega)
    rw [char_toNat_ofNat hv, if_neg (by omega)]
  · rw [if_neg h, if_neg h]

theorem pyLower_idem (s : String) : pyLower (pyLower s) = pyLower s := by
  have key : ∀ l : List Char, (l.map pyLowerChar).map pyLowerChar = l.map pyLowerChar := by
    intro l
    induction l with
    | nil => rfl
    | cons c t ih => simp only [List.map_cons, pyLowerChar_idem, ih]
  unfold pyLower
  exact congrArg String.mk (key s.data)

/-- C1, counterexample: the value exactly 1,000,000 does not render as
`"1.0 m"` — the millions tier is entered by a strictly-greater-than test,
so exactly 1,000,000 falls through to the integer-thousands tier. -/
theorem million_boundary_not_one_decimal :
    EDBounty.pretty_print ⟨1000000, 0⟩ ≠ "1.0 m" := by
  decide

/-- C1 (amended): because the millions tier is entered by a
strictly-greater-than test at 1,000,000, the value exactly 1,000,000
falls through to the integer-thousands tier and renders `"1000 k"`,
while values strictly above it, such as 1,000,001, render the
one-decimal millions form `"1.0 m"`. -/
theorem million_boundary_renders_thousands :
    EDBounty.pretty_print ⟨1000000, 0⟩ = "1000 k" ∧
    EDBounty.pretty_print ⟨1000001, 0⟩ = "1.0 m" := by
  constructor <;> decide

/-- C2: values at or above an integer-tier boundary render as an integer
count of the unit with no decimal point: 10,000 → `"10 k"`,
10,000,000 → `"10 m"`, 10,000,000,000 → `"10 b"`. -/
theorem integer_tier_boundaries_render_integer :
    EDBounty.pretty_print ⟨10000, 0⟩ = "10 k" ∧
    EDBounty.pretty_print ⟨10000000, 0⟩ = "10 m" ∧
    EDBounty.pretty_print ⟨10000000000, 0⟩ = "10 b" := by
  refine ⟨?_, ?_, ?_⟩ <;> decide

/-- C5, counterexample: `inception()` does not leave `game_mode` unset —
from a state in mode `"Open"` the mode survives the reset. -/
theorem inception_leaves_game_mode_set :
    (EDCmdr.inception { EDCmdr.init with game_mode := some "Open" }).game_mode ≠ none := by
  decide

/-- C5 (amended): `inception()` from any state clears
`previous_mode`/`previous_wing`/`wing` and sets `from_birth`, but leaves
`game_mode` (as well as the ship and the location) unchanged rather than
unset. -/
theorem inception_resets_except_game_mode (c : EDCmdr) :
    c.inception.from_birth = true ∧
    c.inception.previous_mode = none ∧
    c.inception.previous_wing = ∅ ∧
    c.inception.wing = ∅ ∧
    c.inception.game_mode = c.game_mode ∧
    c.inception._ship = c._ship ∧
    c.inception.location = c.location := by
  simp [EDCmdr.inception]

/-- C6: from any state with mode `m`, `killed()` clears the current mode
and wing while snapshotting them into `previous_mode`/`previous_wing`,
and the subsequent `resurrect()` restores mode `m` and the original wing
and clears both snapshots. -/
theorem killed_resurrect_round_trip (c : EDCmdr) (m : String)
    (h : c.game_mode = some m) :
    c.killed.game_mode = none ∧
    c.killed.wing = ∅ ∧
    c.killed.previous_mode = some m ∧
    c.killed.previous_wing = c.wing ∧
    c.killed.resurrect.game_mode = some m ∧
    c.killed.resurrect.wing = c.wing ∧
    c.killed.resurrect.previous_mode = none ∧
    c.killed.resurrect.previous_wing = ∅ := by
  simp [EDCmdr.killed, EDCmdr.resurrect, h]

/-- C6, witness: the round trip at mode `"Open"`, wing `{"A", "B"}`. -/
theorem killed_resurrect_round_trip_witness :
    cmdrOpenAB.game_mode = some "Open" ∧
    (cmdrOpenAB.killed.game_mode = none ∧
     cmdrOpenAB.killed.wing = ∅ ∧
     cmdrOpenAB.killed.previous_mode = some "Open" ∧
     cmdrOpenAB.killed.previous_wing = cmdrOpenAB.wing ∧
     cmdrOpenAB.killed.resurrect.game_mode = some "Open" ∧
     cmdrOpenAB.killed.resurrect.wing = cmdrOpenAB.wing ∧
     cmdrOpenAB.killed.resurrect.previous_mode = none ∧
     cmdrOpenAB.killed.resurrect.previous_wing = ∅) :=
  ⟨rfl, killed_resurrect_round_trip cmdrOpenAB "Open" rfl⟩

/-- Invariant carried through any trace: if the phase bit already
accounts for a populated `previous_mode`/`previous_wing`, it still does
after one more operation — and hence after any suffix of operations. -/
theorem phase_invariant (ops : List Op) :
    ∀ (c : EDCmdr) (b : Bool),
      ((c.previous_mode ≠ none ∨ c.previous_wing ≠ ∅) → b = true) →
      ((ops.foldl applyOp c).previous_mode ≠ none ∨
        (ops.foldl applyOp c).previous_wing ≠ ∅) →
      ops.foldl phaseStep b = true := by
  induction ops with
  | nil => intro c b h hp; exact h hp
  | cons o rest ih =>
      intro c b h hp
      simp only [List.foldl_cons] at hp ⊢
      refine ih (applyOp c o) (phaseStep b o) ?_ hp
      cases o with
      | inceptionOp =>
          intro hcontra
          simp [applyOp, EDCmdr.inception] at hcontra
      | killedOp => intro _; rfl
      | resurrectOp =>
          intro hcontra
          simp [applyOp, EDCmdr.resurrect] at hcontra
      | leaveWingOp => exact fun hc => h (by simpa [applyOp, EDCmdr.leave_wing] using hc)
      | joinWingOp others => exact fun hc => h (by simpa [applyOp, EDCmdr.join_wing] using hc)
      | addToWingOp other => exact fun hc => h (by simpa [applyOp, EDCmdr.add_to_wing] using hc)
      | setGameMode m => exact fun hc => h (by simpa [applyOp] using hc)
      | setShip table s => exact fun hc => h (by simpa [applyOp] using hc)
      | setStarSystem s => exact fun hc => h (by simpa [applyOp] using hc)
      | setPlace p => exact fun hc => h (by simpa [applyOp] using hc)
      | setTimestamp ms => exact fun hc => h (by simpa [applyOp] using hc)

/-- C4 (amended): in every commander state reachable from a fresh
`EDCmdr()` by the public operations, `previous_mode` or `previous_wing`
can be populated only while the state machine is in the combat-loss
("killed") phase; the converse direction of the claimed equivalence
fails (see the counterexample). -/
theorem populated_previous_implies_killed_phase (ops : List Op)
    (h : (runOps EDCmdr.init ops).previous_mode ≠ none ∨
      (runOps EDCmdr.init ops).previous_wing ≠ ∅) :
    inKilledPhase ops = true :=
  phase_invariant ops EDCmdr.init false (by simp [EDCmdr.init]) h

/-- C4, witness: setting mode `"Open"` and then dying populates the
snapshot, and the trace is indeed in the killed phase. -/
theorem populated_previous_implies_killed_phase_witness :
    ((runOps EDCmdr.init [Op.setGameMode (some "Open"), Op.killedOp]).previous_mode ≠ none ∨
      (runOps EDCmdr.init [Op.setGameMode (some "Open"), Op.killedOp]).previous_wing ≠ ∅) ∧
    inKilledPhase [Op.setGameMode (some "Open"), Op.killedOp] = true :=
  ⟨Or.inl (by decide),
   populated_previous_implies_killed_phase _ (Or.inl (by decide))⟩

/-- C4, counterexample: a `killed()` on a fresh commander (mode unset,
wing empty) puts the trace in the killed phase while leaving both
`previous_mode` and `previous_wing` unpopulated, so "populated iff in
the killed phase" fails right-to-left. -/
theorem killed_phase_without_populated_previous :
    inKilledPhase [Op.killedOp] = true ∧
    (runOps EDCmdr.init [Op.killedOp]).previous_mode = none ∧
    (runOps EDCmdr.init [Op.killedOp]).previous_wing = ∅ := by
  refine ⟨rfl, rfl, rfl⟩

/-- C7: with a parseable event timestamp, each update operation returns
`true`, stores the (for ships: canonicalized) new value and advances the
stored timestamp exactly when the current field is unset or differs from
the new value, and otherwise returns `false` leaving the whole state —
timestamp included — unchanged. -/
theorem update_if_obsolete_gated_on_value (table : ShipTable) (parse : TimestampParse)
    (c : EDCmdr) (ship sys pl : Option String) (ts : String) (ms : Nat)
    (hp : parse ts = some ms) :
    (c._ship = none ∨ c._ship ≠ some (EDVehicles.canonicalize table ship) →
      c.update_ship_if_obsolete table parse ship ts
        = (Except.ok true, { c with _ship := some (EDVehicles.canonicalize table ship), _timestamp := ms })) ∧
    (c._ship = some (EDVehicles.canonicalize table ship) →
      c.update_ship_if_obsolete table parse ship ts = (Except.ok false, c)) ∧
    (c.location.star_system = none ∨ c.location.star_system ≠ sys →
      c.update_star_system_if_obsolete parse sys ts
        = (Except.ok true, { c with location := { c.location with star_system := sys }, _timestamp := ms })) ∧
    (c.location.star_system ≠ none ∧ c.location.star_system = sys →
      c.update_star_system_if_obsolete parse sys ts = (Except.ok false, c)) ∧
    (c.location.place = none ∨ c.location.place ≠ pl →
      c.update_place_if_obsolete parse pl ts
        = (Except.ok true, { c with location := { c.location with place := pl }, _timestamp := ms })) ∧
    (c.location.place ≠ none ∧ c.location.place = pl →
      c.update_place_if_obsolete parse pl ts = (Except.ok false, c)) := by
  refine ⟨?_, ?_, ?_, ?_, ?_, ?_⟩
  · intro h
    rw [EDCmdr.update_ship_if_obsolete, if_pos h, hp]
  · intro h
    rw [EDCmdr.update_ship_if_obsolete, if_neg (by simp [h])]
  · intro h
    rw [EDCmdr.update_star_system_if_obsolete, if_pos h, hp]
  · intro h
    rw [EDCmdr.update_star_system_if_obsolete,
      if_neg (fun hor => hor.elim (fun h1 => h.1 h1) (fun h2 => h2 h.2))]
  · intro h
    rw [EDCmdr.update_place_if_obsolete, if_pos h, hp]
  · intro h
    rw [EDCmdr.update_place_if_obsolete,
      if_neg (fun hor => hor.elim (fun h1 => h.1 h1) (fun h2 => h2 h.2))]

/-- C7, witness: on a fresh commander the first `"sidewinder"` update
applies (canonicalized, timestamp advanced), and on a commander already
holding the canonical form it is a no-op. -/
theorem update_if_obsolete_gated_on_value_witness :
    sampleParse "2017-09-03T10:00:00Z" = some 1504432800000 ∧
    (EDCmdr.init._ship = none ∨
      EDCmdr.init._ship ≠ some (EDVehicles.canonicalize [("sidewinder", "Sidewinder")] (some "sidewinder"))) ∧
    EDCmdr.init.update_ship_if_obsolete [("sidewinder", "Sidewinder")] sampleParse
        (some "sidewinder") "2017-09-03T10:00:00Z"
      = (Except.ok true,
         { EDCmdr.init with
             _ship := some (EDVehicles.canonicalize [("sidewinder", "Sidewinder")] (some "sidewinder"))
             _timestamp := 1504432800000 }) ∧
    ({ EDCmdr.init with _ship := some "Sidewinder" } : EDCmdr).update_ship_if_obsolete
        [("sidewinder", "Sidewinder")] sampleParse (some "sidewinder") "2017-09-03T10:00:00Z"
      = (Except.ok false, { EDCmdr.init with _ship := some "Sidewinder" }) :=
  ⟨rfl, Or.inl rfl,
   (update_if_obsolete_gated_on_value [("sidewinder", "Sidewinder")] sampleParse
     EDCmdr.init (some "sidewinder") none none "2017-09-03T10:00:00Z" 1504432800000 rfl).1
     (Or.inl rfl),
   (update_if_obsolete_gated_on_value [("sidewinder", "Sidewinder")] sampleParse
     { EDCmdr.init with _ship := some "Sidewinder" } (some "sidewinder") none none
     "2017-09-03T10:00:00Z" 1504432800000 rfl).2.1 (by decide)⟩

/-- C3: evaluating the three update operations on a fresh commander with
an unparseable event timestamp.  Each call fails (`Except.error ()`, the
propagated parse exception) yet the tracked field has already been
mutated, because the source assigns the field before parsing the
timestamp: the failure is not atomic, contradicting the spec's §7
requirement of no partial field mutation. -/
theorem update_ops_not_atomic_on_parse_failure :
    EDCmdr.update_ship_if_obsolete [("sidewinder", "Sidewinder")] (fun _ => none)
        EDCmdr.init (some "Sidewinder") "garbage"
      = (Except.error (), { EDCmdr.init with _ship := some "Sidewinder" }) ∧
    EDCmdr.update_star_system_if_obsolete (fun _ => none)
        EDCmdr.init (some "Sol") "garbage"
      = (Except.error (), { EDCmdr.init with location := { EDLocation.init with star_system := some "Sol" } }) ∧
    EDCmdr.update_place_if_obsolete (fun _ => none)
        EDCmdr.init (some "Cleve Hub") "garbage"
      = (Except.error (), { EDCmdr.init with location := { EDLocation.init with place := some "Cleve Hub" } }) := by
  refine ⟨rfl, rfl, rfl⟩

/-- C8: vehicle-name canonicalization is idempotent, for any table whose
entries satisfy the spec's own description — the stored display forms are
already canonical (fixed points of canonicalization), and the fixed
`"Unknown"` label used for the unset sentinel is canonical as well.
`none` canonicalizes to `"Unknown"`; any other name is lower-cased and
mapped through the table, falling back to the lower-cased input. -/
theorem canonicalize_idempotent (table : ShipTable)
    (hvals : ∀ k v, List.lookup k table = some v →
      EDVehicles.canonicalize table (some v) = v)
    (hunknown : EDVehicles.canonicalize table (some "Unknown") = "Unknown")
    (name : Option String) :
    EDVehicles.canonicalize table (some (EDVehicles.canonicalize table name))
      = EDVehicles.canonicalize table name := by
  cases name with
  | none => exact hunknown
  | some s =>
      cases hl : List.lookup (pyLower s) table with
      | some v =>
          have hs : EDVehicles.canonicalize table (some s) = v := by
            simp [EDVehicles.canonicalize, hl]
          rw [hs]
          exact hvals _ v hl
      | none =>
          have hs : EDVehicles.canonicalize table (some s) = pyLower s := by
            simp [EDVehicles.canonicalize, hl]
          rw [hs]
          simp [EDVehicles.canonicalize, pyLower_idem, hl]

theorem sampleTable_vals : ∀ k v, List.lookup k sampleTable = some v →
    EDVehicles.canonicalize sampleTable (some v) = v := by
  intro k v h
  by_cases h1 : k = "sidewinder"
  · subst h1
    have h' : some "Sidewinder" = some v := by
      simpa [sampleTable, List.lookup] using h
    cases h'
    decide
  · by_cases h2 : k = "unknown"
    · subst h2
      have h' : some "Unknown" = some v := by
        simpa [sampleTable, List.lookup] using h
      cases h'
      decide
    · exfalso
      have e1 : (k == "sidewinder") = false := beq_eq_false_iff_ne.mpr h1
      have e2 : (k == "unknown") = false := beq_eq_false_iff_ne.mpr h2
      simp [sampleTable, List.lookup, e1, e2] at h

/-- C8, witness: idempotence instantiated at the sample table on the
free-form name `"SideWinder"`, the unset sentinel, and an unmapped
name. -/
theorem canonicalize_idempotent_witness :
    EDVehicles.canonicalize sampleTable (some "Unknown") = "Unknown" ∧
    EDVehicles.canonicalize sampleTable
        (some (EDVehicles.canonicalize sampleTable (some "SideWinder")))
      = EDVehicles.canonicalize sampleTable (some "SideWinder") ∧
    EDVehicles.canonicalize sampleTable
        (some (EDVehicles.canonicalize sampleTable none))
      = EDVehicles.canonicalize sampleTable none ∧
    EDVehicles.canonicalize sampleTable
        (some (EDVehicles.canonicalize sampleTable (some "Hutton Mule")))
      = EDVehicles.canonicalize sampleTable (some "Hutton Mule") :=
  ⟨by decide,
   canonicalize_idempotent sampleTable sampleTable_vals (by decide) (some "SideWinder"),
   canonicalize_idempotent sampleTable sampleTable_vals (by decide) none,
   canonicalize_idempotent sampleTable sampleTable_vals (by decide) (some "Hutton Mule")⟩

/-- C9: `EDLocation.pretty_print` renders the star system; a set place
different from the system is appended after `", "`, with the place's
`star_system + " "` prefix stripped when present; an unset place, an
empty place, or a place equal to the system renders the system alone. -/
theorem location_pretty_print_spec :
    EDLocation.pretty_print ⟨some "Alpha Centauri", some "Alpha Centauri Hutton Orbital", none⟩
      = some "Alpha Centauri, Hutton Orbital" ∧
    (∀ sys sec, EDLocation.pretty_print ⟨some sys, none, sec⟩ = some sys) ∧
    (∀ sys sec, EDLocation.pretty_print ⟨some sys, some sys, sec⟩ = some sys) ∧
    (∀ sys p sec, p ≠ "" → p ≠ sys → strStartsWith p (sys ++ " ") = true →
      EDLocation.pretty_print ⟨some sys, some p, sec⟩
        = some (sys ++ ", " ++ strDrop p (sys ++ " ").length)) ∧
    (∀ sys p sec, p ≠ "" → p ≠ sys → strStartsWith p (sys ++ " ") = false →
      EDLocation.pretty_print ⟨some sys, some p, sec⟩ = some (sys ++ ", " ++ p)) := by
  refine ⟨by decide, ?_, ?_, ?_, ?_⟩
  · intro sys sec
    rfl
  · intro sys sec
    by_cases h : sys = ""
    · subst h
      rfl
    · simp [EDLocation.pretty_print, h]
  · intro sys p sec h1 h2 h3
    simp [EDLocation.pretty_print, h1, h2, Option.some_inj, h3]
  · intro sys p sec h1 h2 h3
    simp [EDLocation.pretty_print, h1, h2, Option.some_inj, h3]

/-- C9, witness: the prefix-stripping branch at the spec's example, and
the verbatim-append branch at system `"Sol"`, place `"Hutton Orbital"`. -/
theorem location_pretty_print_spec_witness :
    ("Alpha Centauri Hutton Orbital" ≠ "" ∧
     "Alpha Centauri Hutton Orbital" ≠ "Alpha Centauri" ∧
     strStartsWith "Alpha Centauri Hutton Orbital" ("Alpha Centauri" ++ " ") = true) ∧
    EDLocation.pretty_print ⟨some "Alpha Centauri", some "Alpha Centauri Hutton Orbital", none⟩
      = some ("Alpha Centauri" ++ ", " ++
          strDrop "Alpha Centauri Hutton Orbital" ("Alpha Centauri" ++ " ").length) ∧
    EDLocation.pretty_print ⟨some "Sol", some "Hutton Orbital", none⟩
      = some ("Sol" ++ ", " ++ "Hutton Orbital") :=
  ⟨⟨by decide, by decide, by decide⟩,
   location_pretty_print_spec.2.2.2.1 "Alpha Centauri" "Alpha Centauri Hutton Orbital" none
     (by decide) (by decide) (by decide),
   location_pretty_print_spec.2.2.2.2 "Sol" "Hutton Orbital" none
     (by decide) (by decide) (by decide)⟩

/-- C10: when `location.place` is unset the public `place` accessor
returns the `"Unknown"` label rather than the sentinel, while
`has_partial_status()` still reports the state incomplete; and the
accessor output is identical to that of a state whose place is literally
named `"Unknown"`, so the two are indistinguishable through the accessor
alone. -/
theorem place_accessor_masks_unknown (c d : EDCmdr)
    (hc : c.location.place = none) (hd : d.location.place = some "Unknown") :
    EDCmdr.place c = "Unknown" ∧
    c.has_partial_status = true ∧
    EDCmdr.place c = EDCmdr.place d := by
  refine ⟨?_, ?_, ?_⟩
  · simp [EDCmdr.place, hc]
  · simp [EDCmdr.has_partial_status, hc]
  · simp [EDCmdr.place, hc, hd]

/-- C10, witness: the fresh commander against one whose place is the
literal string `"Unknown"`. -/
theorem place_accessor_masks_unknown_witness :
    (EDCmdr.init.location.place = none ∧
     ({ EDCmdr.init with location := { EDLocation.init with place := some "Unknown" } } : EDCmdr).location.place
        = some "Unknown") ∧
    (EDCmdr.place EDCmdr.init = "Unknown" ∧
     EDCmdr.init.has_partial_status = true ∧
     EDCmdr.place EDCmdr.init
        = EDCmdr.place { EDCmdr.init with location := { EDLocation.init with place := some "Unknown" } }) :=
  ⟨⟨rfl, rfl⟩,
   place_accessor_masks_unknown EDCmdr.init
     { EDCmdr.init with location := { EDLocation.init with place := some "Unknown" } } rfl rfl⟩

end EDR
